import Mathlib

/-!
# Verification of the agentic-dashboard chat session state machine

A shallow embedding of the client-side state machine in
`src/hooks/useChat.ts`, the chart-suggestion normalization in
`src/hooks/useChat.ts` (`handleGraphSuggestions`) and
`src/components/DataExplorer.tsx` (`finalGraphSuggestionForViewer`),
and the plot-parameter construction in
`src/components/GraphViewer.tsx` (`plotParams`).

JavaScript conventions are modelled explicitly:
* optional / possibly-`undefined` fields become `Option`,
* the `||` default operator on strings treats the empty string as falsy
  (`orDefault`),
* truthiness of a JSON value (`truthy`) treats `null`, `false`, `0` and
  `""` as falsy,
* the locally generated message ids (`Date.now()` plus randomness in the
  source) are modelled by a deterministic counter threaded through the
  state (`nextId`); no claim depends on the concrete id strings.
-/

namespace Dashboard

/-! ## Basic string utilities (JS `includes`, `indexOf`, `substring`,
`trim`, `replace(/_/g,' ')`, `endsWith`), implemented over `List Char`. -/

/-- `leadsList p s` holds when the pattern `p` occurs at the very start of
`s` (the matching step of JS `String.prototype.indexOf`). -/
def leadsList : List Char → List Char → Bool
  | [], _ => true
  | _ :: _, [] => false
  | a :: p, b :: s => a == b && leadsList p s

/-- First index `≥ i` at which pattern `p` occurs in `s`, where `i` is the
index of the head of `s` in the enclosing string. -/
def findSubAux (p : List Char) : List Char → Nat → Option Nat
  | [], i => if leadsList p [] then some i else none
  | c :: t, i => if leadsList p (c :: t) then some i else findSubAux p t (i + 1)

/-- JS `s.indexOf(pat, start)` (absolute index; `none` for `-1`). -/
def sIndexOfFrom (s pat : String) (start : Nat) : Option Nat :=
  findSubAux pat.data (s.data.drop start) start

/-- JS `s.indexOf(pat)`. -/
def sIndexOf (s pat : String) : Option Nat :=
  sIndexOfFrom s pat 0

/-- JS `s.includes(pat)`. -/
def sIncludes (s pat : String) : Bool :=
  (sIndexOf s pat).isSome

/-- JS `s.endsWith(pat)`. -/
def sEndsWith (s pat : String) : Bool :=
  leadsList pat.data.reverse s.data.reverse

/-- JS string length (character count; the sources only use ASCII markers). -/
def strLen (s : String) : Nat := s.data.length

/-- JS `s.substring(i)` (to end of string). -/
def strFrom (s : String) (i : Nat) : String := ⟨s.data.drop i⟩

/-- JS `s.substring(i, j)` for `i ≤ j`. -/
def strSlice (s : String) (i j : Nat) : String := ⟨(s.data.drop i).take (j - i)⟩

/-- Whitespace characters removed by JS `trim`. -/
def wsChar (c : Char) : Bool := c == ' ' || c == '\t' || c == '\n' || c == '\r'

/-- JS `s.trim()`. -/
def jsTrim (s : String) : String :=
  ⟨((s.data.dropWhile wsChar).reverse.dropWhile wsChar).reverse⟩

/-- JS `s.replace(/_/g, ' ')`. -/
def repUnderscores (s : String) : String :=
  ⟨s.data.map (fun c => if c == '_' then ' ' else c)⟩

/-- JS `||` on an optional string: the empty string is falsy and also
falls back to the default. -/
def orDefault : Option String → String → String
  | some s, d => if s = "" then d else s
  | none, d => d

/-! ## Data model (from `useChat.ts`) -/

/-- A scalar JSON value as stored in a dataframe row; enough to express
JS truthiness of cell values. -/
inductive JValue where
  | jNull
  | jBool (b : Bool)
  | jNum (n : Int)
  | jStr (s : String)
deriving DecidableEq

/-- JS truthiness of `row[col]` where the lookup may be `undefined`. -/
def truthy : Option JValue → Bool
  | none => false
  | some .jNull => false
  | some (.jBool b) => b
  | some (.jNum n) => n != 0
  | some (.jStr s) => s != ""

/-- One dataframe row: a record mapping column names to values. -/
abbrev Row := List (String × JValue)

/-- JS `row[col]`: `undefined` when the key is absent. -/
def rowGet (r : Row) (k : String) : Option JValue :=
  (r.find? (fun p => p.1 == k)).map (fun p => p.2)

/-- `ChatMessage.role` in `useChat.ts`. -/
inductive Role where
  | user
  | assistant
  | system
  | milestone
  | context_info
deriving DecidableEq

/-- `ChatMessage` in `useChat.ts`. -/
structure ChatMessage where
  id : String
  role : Role
  content : String
  reasoning : Option String
  reportSections : Option (List (String × String))
  generatedQueries : Option (List (String × String))
  step : Option String
deriving DecidableEq

/-- A placeholder entry, only used as the (unreachable) default of
in-bounds list lookups. -/
def defaultMsg : ChatMessage := ⟨"", Role.user, "", none, none, none, none⟩

/-- `QueryResult` in `useChat.ts` (one TabularResult). -/
structure QueryResult where
  objective : String
  query : String
  dataframe : List Row
  error : Option String
  platform : Option String
deriving DecidableEq

/-- `y`-column binding: a single column name or a list of them
(`string | string[]` in the source). -/
inductive YVal where
  | yStr (s : String)
  | yArr (l : List String)
deriving DecidableEq

/-- JS truthiness of a `string | string[]` value: an array is always
truthy, a string iff non-empty. -/
def yTruthy : YVal → Bool
  | .yStr s => s != ""
  | .yArr _ => true

/-- The nested `columns` object of `BackendGraphSuggestionFormat`. -/
structure BackendColumns where
  x : Option String
  y : Option YVal
  names : Option String
  values : Option String
  color : Option String
deriving DecidableEq

/-- `BackendGraphSuggestionFormat` in `useChat.ts`: column roles may be
nested under `columns` or flat (`x_axis`/`y_axis`/`names`/`values`/
`color_column`, kept by the `...rest` spread). -/
structure BackendGraphSuggestion where
  objective : Option String
  type : Option String
  title : Option String
  description : Option String
  columns : Option BackendColumns
  x_axis : Option String
  y_axis : Option YVal
  names : Option String
  values : Option String
  color_column : Option String
  chart_type : Option String
  image_base64 : Option String
deriving DecidableEq

/-- `GraphSuggestion` in `useChat.ts`: the flat frontend shape produced by
`handleGraphSuggestions`. -/
structure GraphSuggestion where
  objective : String
  type : Option String
  title : Option String
  description : Option String
  x_axis : Option String
  y_axis : Option YVal
  names : Option String
  values : Option String
  color_column : Option String
  chart_type : Option String
  image_base64 : Option String
deriving DecidableEq

/-- One element of `executed_queries` in a `final_insight` /
`final_recommendation` payload. -/
structure ExecutedQuery where
  platform : Option String
  objective : Option String
  query : Option String
  data : Option (List Row)
deriving DecidableEq

/-- `WebSocketMessage` in `useChat.ts`: the loosely-typed event envelope,
dispatched on `type`. -/
structure WsMessage where
  type : String
  user_id : Option String
  step : Option String
  status : Option String
  details : Option String
  reasoning : Option String
  insight : Option String
  report_sections : Option (List (String × String))
  graph_suggestions : Option (List BackendGraphSuggestion)
  message : Option String
  generated_queries : Option (List (String × String))
  objective : Option String
  query : Option String
  data : Option (List Row)
  error : Option String
  content : Option String
  platform : Option String
  executed_queries : Option (List ExecutedQuery)
deriving DecidableEq

/-- `ReadyState` of the event channel. -/
inductive ReadyState where
  | CONNECTING
  | OPEN
  | CLOSING
  | CLOSED
  | UNINSTANTIATED
deriving DecidableEq

/-- The state owned by `useChat`: session id, transcript, tabular
results, live status, processing flag, chart suggestions, plus the id
counter modelling `generateId`. -/
structure ChatState where
  userId : Option String
  messages : List ChatMessage
  queryResults : List QueryResult
  currentStatus : Option String
  isProcessing : Bool
  graphSuggestions : List GraphSuggestion
  nextId : Nat
deriving DecidableEq

/-- `generateId` (modelled deterministically). -/
def mkId (n : Nat) : String := "msg_" ++ toString n

/-- `addMessageToChat` with all optional fields. -/
def addMsgFull (st : ChatState) (role : Role) (content : String)
    (reasoning : Option String) (reportSections : Option (List (String × String)))
    (generatedQueries : Option (List (String × String))) (step : Option String) :
    ChatState :=
  { st with
    messages := st.messages ++
      [⟨mkId st.nextId, role, content, reasoning, reportSections, generatedQueries, step⟩],
    nextId := st.nextId + 1 }

/-- `addMessageToChat` with no additional fields. -/
def addMsgPlain (st : ChatState) (role : Role) (content : String) : ChatState :=
  addMsgFull st role content none none none none

/-! ## Event handlers (`useChat.ts`, the `useEffect` switch) -/

/-- `connection_established`: sets the session id when `user_id` is a
truthy string. -/
def handleConn (st : ChatState) (msg : WsMessage) : ChatState :=
  match msg.user_id with
  | some u => if u = "" then st else { st with userId := some u }
  | none => st

/-- Interpolation of a possibly-`undefined` string into a template
literal (JS prints the text `undefined`). -/
def interp : Option String → String
  | some s => s
  | none => "undefined"

/-- `status`: stores the formatted status line; ends the turn on a
`workflow_end` step; appends a milestone entry on completion of
generate/execute/classification steps. -/
def handleStatus (st : ChatState) (msg : WsMessage) : ChatState :=
  let statusText :=
    "**" ++ repUnderscores (interp msg.step) ++ "**: " ++
      repUnderscores (interp msg.status) ++
      (match msg.details with
       | some d => if d = "" then "" else " - " ++ d
       | none => "")
  let st1 := { st with currentStatus := some statusText }
  match msg.step with
  | none => st1
  | some stepS =>
    if sEndsWith stepS "workflow_end" then
      { st1 with currentStatus := none, isProcessing := false }
    else if msg.status = some "completed" then
      let hasGen := sIncludes stepS "generate"
      let hasQ := sIncludes stepS "queries"
      let hasExec := sIncludes stepS "execute"
      let hasClass := sIncludes stepS "classification"
      let pair : String × Option (List (String × String)) :=
        if hasGen && hasQ && msg.generated_queries.isSome then
          let gq := msg.generated_queries.getD []
          let n := gq.length
          ("✅ Query Generation Finished (" ++ toString n ++ " " ++
            (if n = 1 then "query" else "queries") ++ ")", some gq)
        else if hasExec && hasQ then ("✅ Query Execution Finished", none)
        else if hasClass then ("✅ Classification Finished", none)
        else ("✅ " ++ repUnderscores stepS ++ " Finished", none)
      if hasGen || hasExec || hasClass then
        { st1 with
          messages := st1.messages ++
            [⟨mkId st1.nextId, Role.milestone, pair.1, none, none, pair.2, some stepS⟩],
          nextId := st1.nextId + 1 }
      else st1
    else st1

/-- `classifier_info`: appends an assistant entry and a planning status
when the payload carries non-blank text. -/
def handleClassInfo (st : ChatState) (msg : WsMessage) : ChatState :=
  match msg.content with
  | some c =>
    if jsTrim c = "" then st
    else { addMsgPlain st Role.assistant c with currentStatus := some "Planning workflow..." }
  | none => st

/-- `classifier_answer`: appends an assistant entry when the payload
carries non-blank text; terminates the turn either way. -/
def handleClassAnswer (st : ChatState) (msg : WsMessage) : ChatState :=
  match msg.content with
  | some c =>
    if jsTrim c = "" then { st with currentStatus := none, isProcessing := false }
    else { addMsgPlain st Role.assistant c with currentStatus := none, isProcessing := false }
  | none => { st with currentStatus := none, isProcessing := false }

/-- The predicate of the `findLastIndex` call in the `reasoning_summary`
case: a milestone entry whose `step` equals the event step. -/
def milestonePred (s : String) (m : ChatMessage) : Bool :=
  decide (m.role = Role.milestone ∧ m.step = some s)

/-- JS `Array.prototype.findLastIndex`. -/
def findLastIdxL {α : Type} (p : α → Bool) : List α → Option Nat
  | [] => none
  | a :: t =>
    match findLastIdxL p t with
    | some k => some (k + 1)
    | none => if p a then some 0 else none

/-- `reasoning_summary`: attaches formatted reasoning to the most recent
matching milestone entry; no-op when step/reasoning are not truthy or no
milestone matches. -/
def handleReasoningSummary (st : ChatState) (msg : WsMessage) : ChatState :=
  match msg.step, msg.reasoning with
  | some s, some r =>
    if s = "" || r = "" then st
    else
      let txt := "**Reasoning:**\n" ++ r
      match findLastIdxL (milestonePred s) st.messages with
      | some k =>
        { st with
          messages := st.messages.set k
            { st.messages.getD k defaultMsg with reasoning := some txt } }
      | none => st
  | _, _ => st

/-- The loop body of `handleExecutedQueries`: truthy `data` (any present
array, including the empty one) is kept; absent `data` is skipped. `i` is
the 0-based index of the head in the original array. -/
def execQueriesToResults : List ExecutedQuery → Nat → List QueryResult
  | [], _ => []
  | e :: rest, i =>
    match e.data with
    | some d =>
      { objective := orDefault e.objective ("Executed Query " ++ toString (i + 1)),
        query := orDefault e.query "N/A",
        dataframe := d,
        error := none,
        platform := e.platform } :: execQueriesToResults rest (i + 1)
    | none => execQueriesToResults rest (i + 1)

/-- The per-suggestion mapping inside `handleGraphSuggestions`: drops the
nested `columns` object, keeps the flat fields via the `...rest` spread,
then copies truthy `columns.x` / `columns.y` over `x_axis` / `y_axis`. -/
def mapBackendSuggestion (bs : BackendGraphSuggestion) : GraphSuggestion :=
  let base : GraphSuggestion :=
    { objective := orDefault bs.objective "Unknown Objective",
      type := bs.type,
      title := bs.title,
      description := bs.description,
      x_axis := bs.x_axis,
      y_axis := bs.y_axis,
      names := bs.names,
      values := bs.values,
      color_column := bs.color_column,
      chart_type := bs.chart_type,
      image_base64 := bs.image_base64 }
  let withX :=
    match bs.columns with
    | some c =>
      match c.x with
      | some x => if x = "" then base else { base with x_axis := some x }
      | none => base
    | none => base
  match bs.columns with
  | some c =>
    match c.y with
    | some y => if yTruthy y then { withX with y_axis := some y } else withX
    | none => withX
  | none => withX

/-- `handleGraphSuggestions`: replaces the suggestion list with the
mapped suggestions, or clears it when none/empty. -/
def handleGraphSuggestions (bss : Option (List BackendGraphSuggestion)) :
    List GraphSuggestion :=
  match bss with
  | some l => if l.isEmpty then [] else l.map mapBackendSuggestion
  | none => []

/-- `insightReasoning ? "**Final Reasoning:**\\n" + r : undefined`
(note: the TS source writes a literal backslash-n). -/
def formatFinalReasoning : Option String → Option String
  | some r => if r = "" then none else some ("**Final Reasoning:**\\n" ++ r)
  | none => none

/-- `final_insight`: appends the insight entry, bulk-replaces the results
iff `executed_queries` is present, replaces the suggestions, ends the
turn. -/
def handleFinalInsight (st : ChatState) (msg : WsMessage) : ChatState :=
  let st1 := addMsgFull st Role.assistant
    (orDefault msg.insight "No final insight received.")
    (formatFinalReasoning msg.reasoning) none none msg.step
  let st2 :=
    match msg.executed_queries with
    | some l => { st1 with queryResults := execQueriesToResults l 0 }
    | none => st1
  { st2 with
    graphSuggestions := handleGraphSuggestions (some (msg.graph_suggestions.getD [])),
    currentStatus := none,
    isProcessing := false }

/-- `final_recommendation`: appends the report entry, bulk-replaces the
results when `executed_queries` is present and clears them otherwise,
replaces the suggestions, ends the turn. -/
def handleFinalRecommendation (st : ChatState) (msg : WsMessage) : ChatState :=
  let content :=
    match msg.report_sections with
    | some rs => "Optimization report generated with " ++ toString rs.length ++ " sections."
    | none => "Optimization report received."
  let st1 := addMsgFull st Role.assistant content
    (formatFinalReasoning msg.reasoning) msg.report_sections none msg.step
  let st2 :=
    match msg.executed_queries with
    | some l => { st1 with queryResults := execQueriesToResults l 0 }
    | none => { st1 with queryResults := [] }
  { st2 with
    graphSuggestions := handleGraphSuggestions msg.graph_suggestions,
    currentStatus := none,
    isProcessing := false }

/-- The TabularResult built from a `query_result` payload. -/
def builtQueryResult (msg : WsMessage) : QueryResult :=
  { objective := orDefault msg.objective "Unknown Objective",
    query := orDefault msg.query "Unknown Query",
    dataframe := msg.data.getD [],
    error := msg.error,
    platform := msg.platform }

/-- The duplicate test of the `query_result` case: strict (`===`)
equality of `objective`, `query` and `platform`. -/
def sameTriple (a b : QueryResult) : Bool :=
  a.objective == b.objective && a.query == b.query && a.platform == b.platform

/-- `query_result`: appends the built result unless an existing entry
shares its `(objective, query, platform)` triple. -/
def handleQueryResult (st : ChatState) (msg : WsMessage) : ChatState :=
  let r := builtQueryResult msg
  { st with
    queryResults :=
      if st.queryResults.any (fun qr => sameTriple qr r) then st.queryResults
      else st.queryResults ++ [r] }

/-- `error`: appends a system entry and ends the turn. -/
def handleError (st : ChatState) (msg : WsMessage) : ChatState :=
  let errText :=
    "**Error (" ++ orDefault msg.step "Unknown Step" ++ "):** " ++ interp msg.message ++
      (match msg.details with
       | some d => if d = "" then "" else "\\n\\`\\`\\`\\n" ++ d ++ "\\`\\`\\`"
       | none => "")
  { addMsgPlain st Role.system errText with currentStatus := none, isProcessing := false }

/-- The event dispatch of the `useEffect` switch, keyed by `type`;
`routing_decision` and unknown types are logged-only no-ops. -/
def dispatch (t : String) (st : ChatState) (msg : WsMessage) : ChatState :=
  match t with
  | "connection_established" => handleConn st msg
  | "status" => handleStatus st msg
  | "classifier_info" => handleClassInfo st msg
  | "classifier_answer" => handleClassAnswer st msg
  | "reasoning_summary" => handleReasoningSummary st msg
  | "final_insight" => handleFinalInsight st msg
  | "final_recommendation" => handleFinalRecommendation st msg
  | "query_result" => handleQueryResult st msg
  | "routing_decision" => st
  | "error" => handleError st msg
  | _ => st

/-- Folding one WebSocket event into the state. -/
def processWsMessage (st : ChatState) (msg : WsMessage) : ChatState :=
  dispatch msg.type st msg

/-! ## Outbound message parsing and `sendMessage` (synchronous part) -/

def ctxStartMarker : String := "---DISPLAY_CONTEXT START---"
def ctxEndMarker : String := "---DISPLAY_CONTEXT END---"
def queryStartMarker : String := "---QUERY START---"

/-- `message.indexOf(queryStartMarker) + queryStartMarker.length`. -/
def queryContentStart (message : String) : Nat :=
  (sIndexOf message queryStartMarker).getD 0 + strLen queryStartMarker

/-- `message.indexOf(displayContextStartMarker) + displayContextStartMarker.length`. -/
def ctxContentStart (message : String) : Nat :=
  (sIndexOf message ctxStartMarker).getD 0 + strLen ctxStartMarker

/-- `parseUserMessageWithContext`: when both the context-start and the
query-start markers are present, the user content is the trimmed text
after the query marker and a non-blank context block becomes a
`context_info` entry (with the supplied id). -/
def parseUserMessageWithContext (cid : String) (message : String) :
    String × Option ChatMessage :=
  if sIncludes message ctxStartMarker && sIncludes message queryStartMarker then
    let userContent := jsTrim (strFrom message (queryContentStart message))
    let cIdx := ctxContentStart message
    match sIndexOfFrom message ctxEndMarker cIdx with
    | some e =>
      if cIdx < e then
        let ctx := jsTrim (strSlice message cIdx e)
        if ctx = "" then (userContent, none)
        else (userContent, some ⟨cid, Role.context_info, ctx, none, none, none, none⟩)
      else (userContent, none)
    | none => (userContent, none)
  else (message, none)

/-- The synchronous part of `sendMessage` (everything before the HTTP
call; the three guards and, on success, the transcript append, the list
resets, the status and the processing flag). -/
def sendMessageSync (st : ChatState) (rs : ReadyState) (message : String) : ChatState :=
  if rs ≠ ReadyState.OPEN then
    { addMsgPlain st Role.system
        "Error: Cannot connect to assistant. Backend connection is closed." with
      isProcessing := false }
  else
    match st.userId with
    | none =>
      { addMsgPlain st Role.system
          "Error: Connection established, but user ID not received yet. Please wait a moment and try again." with
        isProcessing := false }
    | some _ =>
      if jsTrim message = "" then st
      else
        let pr := parseUserMessageWithContext (mkId st.nextId) message
        match pr.2 with
        | some cm =>
          { st with
            messages := st.messages ++
              [cm, ⟨mkId (st.nextId + 1), Role.user, pr.1, none, none, none, none⟩],
            nextId := st.nextId + 2,
            queryResults := [],
            graphSuggestions := [],
            currentStatus := some "Thinking...",
            isProcessing := true }
        | none =>
          { st with
            messages := st.messages ++
              [⟨mkId st.nextId, Role.user, pr.1, none, none, none, none⟩],
            nextId := st.nextId + 1,
            queryResults := [],
            graphSuggestions := [],
            currentStatus := some "Thinking...",
            isProcessing := true }

/-! ## Chart spec normalization (`DataExplorer.tsx`) and plot parameters
(`GraphViewer.tsx`) -/

/-- The normalized `columns` object of the plot form. -/
structure PlotColumns where
  x : Option String
  y : Option YVal
  names : Option String
  values : Option String
  color : Option String
deriving DecidableEq

/-- The normalized suggestion handed to `GraphViewer`: image form, plot
form, or none form. -/
inductive ViewerSuggestion where
  | image (title : Option String) (description : Option String)
      (image_base64 : Option String)
  | plot (ptype : Option String) (title : Option String) (description : Option String)
      (columns : PlotColumns) (objective : String)
  | noneKind (title : Option String)
deriving DecidableEq

/-- `typeof chart_type === 'string' ? chart_type : type`. -/
def resolvedType (chartType ty : Option String) : Option String :=
  match chartType with
  | some c => some c
  | none => ty

/-- `finalGraphSuggestionForViewer` in `DataExplorer.tsx`: image
pass-through; otherwise the flat fields are gathered into a nested
`columns` object, a resolved `none` type yields the none form, and a
resolved `image` type on the plot path fails (`null`). -/
def finalGraphSuggestionForViewer (s : GraphSuggestion) : Option ViewerSuggestion :=
  if s.type = some "image" then
    some (.image s.title s.description s.image_base64)
  else
    let t := resolvedType s.chart_type s.type
    let cols : PlotColumns :=
      { x := s.x_axis, y := s.y_axis, names := s.names, values := s.values,
        color := s.color_column }
    if t = some "none" then some (.noneKind s.title)
    else if t = some "image" then none
    else some (.plot t s.title s.description cols s.objective)

/-- `Array.isArray(yCol) ? yCol[0] : yCol` (`undefined` for an empty
array). -/
def yColFirst : Option YVal → Option String
  | some (.yStr s) => some s
  | some (.yArr (a :: _)) => some a
  | some (.yArr []) => none
  | none => none

/-- The data part of the `PlotParams` built by `GraphViewer`. -/
inductive PlotTrace where
  | cartesian (typ : String) (xValues yValues : List (Option JValue))
      (colorValues : Option (List (Option JValue)))
  | pie (labels values : List (Option JValue))
deriving DecidableEq

/-- The `plotParams` memo of `GraphViewer.tsx`, restricted to its data
payload: `none` models the `null` return (no plot produced). The guards
follow the source: suggestion type must be a truthy non-image non-none
string, the dataframe non-empty, and the required column names and the
first row's values at them truthy. -/
def plotParams (ptype : Option String) (cols : PlotColumns) (data : List Row) :
    Option PlotTrace :=
  if ptype = some "image" ∨ ptype = some "none" ∨ ptype = none ∨ ptype = some "" then none
  else
    match data with
    | [] => none
    | row0 :: _ =>
      let t := ptype.getD ""
      if t = "bar" ∨ t = "line" ∨ t = "scatter" then
        match cols.x, yColFirst cols.y with
        | some xc, some yc =>
          if xc ≠ "" ∧ yc ≠ "" ∧ truthy (rowGet row0 xc) ∧ truthy (rowGet row0 yc) then
            some (.cartesian t (data.map (fun r => rowGet r xc))
              (data.map (fun r => rowGet r yc))
              (match cols.color with
               | some cc =>
                 if cc ≠ "" ∧ truthy (rowGet row0 cc) then
                   some (data.map (fun r => rowGet r cc))
                 else none
               | none => none))
          else none
        | _, _ => none
      else if t = "pie" then
        match cols.names, cols.values with
        | some nc, some vc =>
          if nc ≠ "" ∧ vc ≠ "" ∧ truthy (rowGet row0 nc) ∧ truthy (rowGet row0 vc) then
            some (.pie (data.map (fun r => rowGet r nc))
              (data.map (fun r => rowGet r vc)))
          else none
        | _, _ => none
      else none

end Dashboard

namespace Dashboard

/-! ## Shared reduction lemmas and concrete fixtures -/

theorem processWsMessage_def (st : ChatState) (msg : WsMessage) :
    processWsMessage st msg = dispatch msg.type st msg := rfl

theorem dispatch_final_insight : dispatch "final_insight" = handleFinalInsight := rfl

theorem dispatch_final_recommendation :
    dispatch "final_recommendation" = handleFinalRecommendation := rfl

theorem dispatch_query_result : dispatch "query_result" = handleQueryResult := rfl

theorem dispatch_reasoning_summary :
    dispatch "reasoning_summary" = handleReasoningSummary := rfl

/-- The empty idle state (transcript cleared for brevity; the source
starts with one greeting entry, which no claim depends on). -/
def st0 : ChatState := ⟨none, [], [], none, false, [], 0⟩

/-- An event envelope with every optional field absent. -/
def baseMsg (t : String) : WsMessage :=
  ⟨t, none, none, none, none, none, none, none, none, none, none, none, none,
    none, none, none, none, none⟩

/-! ## C2 — bulk `executed_queries` processing -/

/-- Specification-shaped characterization of bulk processing: keep
exactly the entries whose `data` is present, defaulting `objective` to
`"Executed Query {1-based index}"` and `query` to `"N/A"`. -/
def execResultsSpec (l : List ExecutedQuery) : List QueryResult :=
  l.enum.filterMap (fun p =>
    match p.2.data with
    | some d =>
      some { objective := orDefault p.2.objective ("Executed Query " ++ toString (p.1 + 1)),
             query := orDefault p.2.query "N/A",
             dataframe := d, error := none, platform := p.2.platform }
    | none => none)

theorem execQueriesToResults_eq_spec_aux (l : List ExecutedQuery) (i : Nat) :
    execQueriesToResults l i =
      (l.enumFrom i).filterMap (fun p =>
        match p.2.data with
        | some d =>
          some { objective := orDefault p.2.objective ("Executed Query " ++ toString (p.1 + 1)),
                 query := orDefault p.2.query "N/A",
                 dataframe := d, error := none, platform := p.2.platform }
        | none => none) := by
  induction l generalizing i with
  | nil => rfl
  | cons e rest ih =>
    simp only [execQueriesToResults, List.enumFrom, List.filterMap_cons]
    cases e.data <;> simp [ih]

theorem execQueriesToResults_eq_spec (l : List ExecutedQuery) :
    execQueriesToResults l 0 = execResultsSpec l :=
  execQueriesToResults_eq_spec_aux l 0

/-- C2 (amended): processing `executed_queries` fully replaces the prior
TabularResult list with one entry per element whose `data` field is
PRESENT (including a present-but-empty array, which is truthy in JS and
is NOT skipped — only absent `data` is skipped), with `objective`
defaulting to `"Executed Query {1-based index}"` and `query` to `"N/A"`
when absent or empty. -/
theorem c2_executed_queries_replace (st : ChatState) (msg : WsMessage)
    (l : List ExecutedQuery)
    (ht : msg.type = "final_insight" ∨ msg.type = "final_recommendation")
    (hex : msg.executed_queries = some l) :
    (processWsMessage st msg).queryResults = execResultsSpec l := by
  rcases ht with h | h <;> rw [processWsMessage_def, h]
  · rw [dispatch_final_insight]
    simp [handleFinalInsight, hex, addMsgFull, execQueriesToResults_eq_spec]
  · rw [dispatch_final_recommendation]
    simp [handleFinalRecommendation, hex, addMsgFull, execQueriesToResults_eq_spec]

theorem c2_executed_queries_replace_witness :
    (processWsMessage { st0 with queryResults := [⟨"a", "b", [], none, none⟩] }
        { baseMsg "final_insight" with
          executed_queries :=
            some [⟨some "g", none, some "q", some [[("a", JValue.jNum 1)]]⟩] }).queryResults =
      execResultsSpec [⟨some "g", none, some "q", some [[("a", JValue.jNum 1)]]⟩] :=
  c2_executed_queries_replace _ _ _ (Or.inl rfl) rfl

/-- C2 counterexample: an `executed_queries` entry whose `data` is the
empty array is kept (the empty array is truthy in JS), contradicting the
claim that entries with empty `data` are skipped. -/
theorem c2_counterexample :
    (processWsMessage st0
        { baseMsg "final_insight" with
          executed_queries := some [⟨some "g", some "o", some "q", some []⟩] }).queryResults =
      [⟨"o", "q", [], none, some "g"⟩] ∧
    (processWsMessage st0
        { baseMsg "final_insight" with
          executed_queries := some [⟨some "g", some "o", some "q", some []⟩] }).queryResults ≠
      [] := by
  refine ⟨rfl, ?_⟩
  decide

/-! ## C4 — terminal events without `executed_queries` -/

/-- C4: a `final_insight` without `executed_queries` leaves the
TabularResult list untouched, a `final_recommendation` without
`executed_queries` clears it, and both end the turn. -/
theorem c4_terminal_results (st : ChatState) (msg : WsMessage)
    (hex : msg.executed_queries = none) :
    (msg.type = "final_insight" →
      (processWsMessage st msg).queryResults = st.queryResults ∧
      (processWsMessage st msg).isProcessing = false) ∧
    (msg.type = "final_recommendation" →
      (processWsMessage st msg).queryResults = [] ∧
      (processWsMessage st msg).isProcessing = false) := by
  constructor
  · intro h
    rw [processWsMessage_def, h, dispatch_final_insight]
    simp [handleFinalInsight, hex, addMsgFull]
  · intro h
    rw [processWsMessage_def, h, dispatch_final_recommendation]
    simp [handleFinalRecommendation, hex, addMsgFull]

theorem c4_terminal_results_witness :
    ((processWsMessage
        { st0 with queryResults := [⟨"a", "b", [], none, none⟩], isProcessing := true }
        (baseMsg "final_insight")).queryResults = [⟨"a", "b", [], none, none⟩] ∧
      (processWsMessage
        { st0 with queryResults := [⟨"a", "b", [], none, none⟩], isProcessing := true }
        (baseMsg "final_insight")).isProcessing = false) ∧
    ((processWsMessage
        { st0 with queryResults := [⟨"a", "b", [], none, none⟩], isProcessing := true }
        (baseMsg "final_recommendation")).queryResults = [] ∧
      (processWsMessage
        { st0 with queryResults := [⟨"a", "b", [], none, none⟩], isProcessing := true }
        (baseMsg "final_recommendation")).isProcessing = false) :=
  ⟨(c4_terminal_results _ _ rfl).1 rfl, (c4_terminal_results _ _ rfl).2 rfl⟩

/-! ## C10 — `query_result` with no data rows -/

/-- C10: a `query_result` event whose payload has absent or empty `data`
still appends an entry (with empty rows, and `objective` / `query`
defaulting to "Unknown Objective" / "Unknown Query"), provided no
existing entry shares the built triple — unlike bulk `executed_queries`
processing, which skips entries with absent `data`. -/
theorem c10_dataless_query_result (st : ChatState) (msg : WsMessage)
    (h : msg.type = "query_result")
    (hdata : msg.data = none ∨ msg.data = some [])
    (hnew : st.queryResults.any (fun qr => sameTriple qr (builtQueryResult msg)) = false) :
    (processWsMessage st msg).queryResults =
      st.queryResults ++
        [{ objective := orDefault msg.objective "Unknown Objective",
           query := orDefault msg.query "Unknown Query",
           dataframe := [], error := msg.error, platform := msg.platform }] ∧
    (∀ e : ExecutedQuery, e.data = none → execQueriesToResults [e] 0 = []) := by
  refine ⟨?_, ?_⟩
  · rw [processWsMessage_def, h, dispatch_query_result]
    unfold handleQueryResult
    simp only [hnew, Bool.false_eq_true, if_false]
    rcases hdata with h1 | h1 <;> simp [h1, builtQueryResult]
  · intro e he
    simp [execQueriesToResults, he]

theorem c10_dataless_query_result_witness :
    (processWsMessage st0 { baseMsg "query_result" with platform := some "g" }).queryResults =
      [{ objective := orDefault none "Unknown Objective",
         query := orDefault none "Unknown Query",
         dataframe := [], error := none, platform := some "g" }] ∧
    (∀ e : ExecutedQuery, e.data = none → execQueriesToResults [e] 0 = []) :=
  c10_dataless_query_result st0 { baseMsg "query_result" with platform := some "g" }
    rfl (Or.inl rfl) rfl

/-! ## C3 — `sendMessage` guards -/

/-- C3 (amended): a send while the channel is not OPEN, or while the
session id is absent, appends exactly one system-role error entry, sets
the processing flag to false and changes nothing else; a send whose text
is empty or whitespace-only (with an OPEN channel and a session id)
changes nothing at all — in particular NO error entry is surfaced for
that guard. -/
theorem c3_send_guards (st : ChatState) (rs : ReadyState) (text : String) :
    (rs ≠ ReadyState.OPEN →
      sendMessageSync st rs text =
        { st with
          messages := st.messages ++
            [⟨mkId st.nextId, Role.system,
              "Error: Cannot connect to assistant. Backend connection is closed.",
              none, none, none, none⟩],
          nextId := st.nextId + 1,
          isProcessing := false }) ∧
    (rs = ReadyState.OPEN → st.userId = none →
      sendMessageSync st rs text =
        { st with
          messages := st.messages ++
            [⟨mkId st.nextId, Role.system,
              "Error: Connection established, but user ID not received yet. Please wait a moment and try again.",
              none, none, none, none⟩],
          nextId := st.nextId + 1,
          isProcessing := false }) ∧
    (rs = ReadyState.OPEN → st.userId ≠ none → jsTrim text = "" →
      sendMessageSync st rs text = st) := by
  refine ⟨?_, ?_, ?_⟩
  · intro h
    simp [sendMessageSync, h, addMsgPlain, addMsgFull]
  · intro h hu
    subst h
    simp [sendMessageSync, hu, addMsgPlain, addMsgFull]
  · intro h hu ht
    subst h
    cases hUid : st.userId with
    | none => exact absurd hUid hu
    | some u => simp [sendMessageSync, hUid, ht]

theorem c3_send_guards_witness :
    sendMessageSync st0 ReadyState.CLOSED "hello" =
      { st0 with
        messages := st0.messages ++
          [⟨mkId st0.nextId, Role.system,
            "Error: Cannot connect to assistant. Backend connection is closed.",
            none, none, none, none⟩],
        nextId := st0.nextId + 1,
        isProcessing := false } :=
  (c3_send_guards st0 ReadyState.CLOSED "hello").1 (by decide)

/-- C3 counterexample: with an OPEN channel and a session id present, a
whitespace-only send leaves the state completely unchanged — no
system-role error entry is surfaced, contradicting the claim. -/
theorem c3_counterexample :
    sendMessageSync { st0 with userId := some "u" } ReadyState.OPEN "   " =
      { st0 with userId := some "u" } := rfl

end Dashboard

namespace Dashboard

/-! ## C5 — context-marked outbound messages -/

/-- The body of the HTTP POST issued by `sendMessage`
(`body: JSON.stringify({ message: message, userId: userId })`,
`useChat.ts` lines 441-450). -/
structure OutboundRequest where
  message : String
  userId : String
deriving DecidableEq

/-- The outbound request of a `sendMessage` call: issued only when the
three guards pass, and carrying the RAW input text (`message: message` in
the source — NOT the parsed `userMessageContent`). -/
def sendMessageRequest (st : ChatState) (rs : ReadyState) (message : String) :
    Option OutboundRequest :=
  if rs ≠ ReadyState.OPEN then none
  else
    match st.userId with
    | none => none
    | some u =>
      if jsTrim message = "" then none
      else some ⟨message, u⟩

/-- C5 (amended): for an input containing both the context-start and
query-start markers, with a well-formed context block whose trimmed
content is non-empty, a send (channel OPEN, session id present) appends
exactly two transcript entries — a `context_info` entry with the trimmed
text between the context markers, immediately followed by a `user` entry
with the trimmed text after the query-start marker — but the content
POSTed to the backend is the RAW, unparsed input (markers included), not
the post-marker text. -/
theorem c5_context_parse (st : ChatState) (u : String) (text : String) (e : Nat)
    (hu : st.userId = some u)
    (h1 : sIncludes text ctxStartMarker = true)
    (h2 : sIncludes text queryStartMarker = true)
    (ht : jsTrim text ≠ "")
    (hend : sIndexOfFrom text ctxEndMarker (ctxContentStart text) = some e)
    (hgt : ctxContentStart text < e)
    (hne : jsTrim (strSlice text (ctxContentStart text) e) ≠ "") :
    (sendMessageSync st ReadyState.OPEN text).messages =
      st.messages ++
        [⟨mkId st.nextId, Role.context_info,
            jsTrim (strSlice text (ctxContentStart text) e), none, none, none, none⟩,
          ⟨mkId (st.nextId + 1), Role.user,
            jsTrim (strFrom text (queryContentStart text)), none, none, none, none⟩] ∧
    sendMessageRequest st ReadyState.OPEN text = some ⟨text, u⟩ := by
  have hp : parseUserMessageWithContext (mkId st.nextId) text =
      (jsTrim (strFrom text (queryContentStart text)),
        some ⟨mkId st.nextId, Role.context_info,
          jsTrim (strSlice text (ctxContentStart text) e), none, none, none, none⟩) := by
    unfold parseUserMessageWithContext
    simp [h1, h2, hend, hgt, hne]
  refine ⟨?_, ?_⟩
  · simp [sendMessageSync, hu, ht, hp]
  · simp [sendMessageRequest, hu, ht]

theorem c5_context_parse_witness :
    (sendMessageSync { st0 with userId := some "u" } ReadyState.OPEN
        "---DISPLAY_CONTEXT START---Filtered to US---DISPLAY_CONTEXT END------QUERY START---show me US revenue").messages =
      [⟨mkId 0, Role.context_info, "Filtered to US", none, none, none, none⟩,
        ⟨mkId 1, Role.user, "show me US revenue", none, none, none, none⟩] ∧
    sendMessageRequest { st0 with userId := some "u" } ReadyState.OPEN
        "---DISPLAY_CONTEXT START---Filtered to US---DISPLAY_CONTEXT END------QUERY START---show me US revenue" =
      some ⟨"---DISPLAY_CONTEXT START---Filtered to US---DISPLAY_CONTEXT END------QUERY START---show me US revenue",
        "u"⟩ := by
  have h := c5_context_parse { st0 with userId := some "u" } "u"
      "---DISPLAY_CONTEXT START---Filtered to US---DISPLAY_CONTEXT END------QUERY START---show me US revenue"
      41 rfl rfl rfl (by decide) rfl (by decide) (by decide)
  exact ⟨h.1.trans (by decide), h.2⟩

/-- C5 counterexample: the backend is POSTed the raw input — the body's
`message` field is the full marker-laden string, while the text after the
query-start marker (which the claim says is the content sent to the
backend) is the distinct string "show me US revenue". -/
theorem c5_counterexample :
    sendMessageRequest { st0 with userId := some "u" } ReadyState.OPEN
        "---DISPLAY_CONTEXT START---Filtered to US---DISPLAY_CONTEXT END------QUERY START---show me US revenue" =
      some ⟨"---DISPLAY_CONTEXT START---Filtered to US---DISPLAY_CONTEXT END------QUERY START---show me US revenue",
        "u"⟩ ∧
    jsTrim (strFrom
        "---DISPLAY_CONTEXT START---Filtered to US---DISPLAY_CONTEXT END------QUERY START---show me US revenue"
        (queryContentStart
          "---DISPLAY_CONTEXT START---Filtered to US---DISPLAY_CONTEXT END------QUERY START---show me US revenue")) =
      "show me US revenue" ∧
    "---DISPLAY_CONTEXT START---Filtered to US---DISPLAY_CONTEXT END------QUERY START---show me US revenue" ≠
      "show me US revenue" := by
  refine ⟨rfl, by decide, by decide⟩

/-! ## C7 — nested vs flat round-trip -/

/-- C7: a suggestion carrying `columns: {x: "date", y: "revenue"}` and an
otherwise identical suggestion carrying flat `x_axis: "date"`,
`y_axis: "revenue"` normalize to the identical plot-form output whose
columns object is `{x: "date", y: "revenue"}`. -/
theorem c7_nested_flat_roundtrip (ob ty ti de ct im : Option String)
    (hty : ty ≠ some "image")
    (h1 : resolvedType ct ty ≠ some "image")
    (h2 : resolvedType ct ty ≠ some "none") :
    finalGraphSuggestionForViewer (mapBackendSuggestion
        ⟨ob, ty, ti, de, some ⟨some "date", some (.yStr "revenue"), none, none, none⟩,
          none, none, none, none, none, ct, im⟩) =
      finalGraphSuggestionForViewer (mapBackendSuggestion
        ⟨ob, ty, ti, de, none, some "date", some (.yStr "revenue"), none, none, none, ct, im⟩) ∧
    finalGraphSuggestionForViewer (mapBackendSuggestion
        ⟨ob, ty, ti, de, some ⟨some "date", some (.yStr "revenue"), none, none, none⟩,
          none, none, none, none, none, ct, im⟩) =
      some (.plot (resolvedType ct ty) ti de
        ⟨some "date", some (.yStr "revenue"), none, none, none⟩
        (orDefault ob "Unknown Objective")) := by
  have hmap : mapBackendSuggestion
      ⟨ob, ty, ti, de, some ⟨some "date", some (.yStr "revenue"), none, none, none⟩,
        none, none, none, none, none, ct, im⟩ =
      mapBackendSuggestion
        ⟨ob, ty, ti, de, none, some "date", some (.yStr "revenue"), none, none, none, ct, im⟩ := by
    simp [mapBackendSuggestion, yTruthy]
  refine ⟨hmap ▸ rfl, ?_⟩
  rw [hmap]
  simp [mapBackendSuggestion, finalGraphSuggestionForViewer, yTruthy, hty, h1, h2]

theorem c7_nested_flat_roundtrip_witness :
    finalGraphSuggestionForViewer (mapBackendSuggestion
        ⟨some "O", some "bar", none, none,
          some ⟨some "date", some (.yStr "revenue"), none, none, none⟩,
          none, none, none, none, none, none, none⟩) =
      finalGraphSuggestionForViewer (mapBackendSuggestion
        ⟨some "O", some "bar", none, none, none, some "date", some (.yStr "revenue"),
          none, none, none, none, none⟩) ∧
    finalGraphSuggestionForViewer (mapBackendSuggestion
        ⟨some "O", some "bar", none, none,
          some ⟨some "date", some (.yStr "revenue"), none, none, none⟩,
          none, none, none, none, none, none, none⟩) =
      some (.plot (resolvedType none (some "bar")) none none
        ⟨some "date", some (.yStr "revenue"), none, none, none⟩
        (orDefault (some "O") "Unknown Objective")) :=
  c7_nested_flat_roundtrip (some "O") (some "bar") none none none none
    (by decide) (by decide) (by decide)

end Dashboard

namespace Dashboard

/-! ## C8 — column-role extraction across the two normalization stages -/

/-- C8 counterexample: `names`, `values` and `color` arriving NESTED under
`columns` are dropped by `handleGraphSuggestions`' mapping (it only copies
`columns.x` and `columns.y`), so they never reach the normalized plot-form
columns object — contradicting the claim that every role is copied from
whichever shape was present. -/
theorem c8_counterexample :
    finalGraphSuggestionForViewer (mapBackendSuggestion
        ⟨some "O", some "pie", none, none,
          some ⟨some "a", some (.yStr "b"), some "n", some "v", some "c"⟩,
          none, none, none, none, none, none, none⟩) =
      some (.plot (some "pie") none none
        ⟨some "a", some (.yStr "b"), none, none, none⟩ "O") ∧
    finalGraphSuggestionForViewer (mapBackendSuggestion
        ⟨some "O", some "pie", none, none,
          some ⟨some "a", some (.yStr "b"), some "n", some "v", some "c"⟩,
          none, none, none, none, none, none, none⟩) ≠
      some (.plot (some "pie") none none
        ⟨some "a", some (.yStr "b"), some "n", some "v", some "c"⟩ "O") := by
  refine ⟨rfl, ?_⟩
  decide

/-- C8 (amended): normalization copies the `x` and `y` roles from
whichever shape was present (a truthy nested `columns.x`/`columns.y`
winning over the flat field), but `names`, `values` and `color` are taken
ONLY from the flat `names`/`values`/`color_column` fields — nested
`columns.names`/`columns.values`/`columns.color` are discarded by the
ingestion mapping; roles whose source field is absent are omitted. -/
theorem c8_column_extraction (bs : BackendGraphSuggestion)
    (hty : bs.type ≠ some "image")
    (h1 : resolvedType bs.chart_type bs.type ≠ some "image")
    (h2 : resolvedType bs.chart_type bs.type ≠ some "none") :
    finalGraphSuggestionForViewer (mapBackendSuggestion bs) =
      some (.plot (resolvedType bs.chart_type bs.type) bs.title bs.description
        { x :=
            match bs.columns with
            | some c =>
              match c.x with
              | some x => if x = "" then bs.x_axis else some x
              | none => bs.x_axis
            | none => bs.x_axis,
          y :=
            match bs.columns with
            | some c =>
              match c.y with
              | some y => if yTruthy y then some y else bs.y_axis
              | none => bs.y_axis
            | none => bs.y_axis,
          names := bs.names,
          values := bs.values,
          color := bs.color_column }
        (orDefault bs.objective "Unknown Objective")) := by
  obtain ⟨ob, ty, ti, de, cols, xa, ya, na, va, cc, ct, im⟩ := bs
  simp only at hty h1 h2 ⊢
  cases cols with
  | none => simp [mapBackendSuggestion, finalGraphSuggestionForViewer, hty, h1, h2]
  | some c =>
    obtain ⟨cx, cy, cn, cv, ccol⟩ := c
    cases cx <;> cases cy <;>
      simp [mapBackendSuggestion, finalGraphSuggestionForViewer, hty, h1, h2] <;>
      split_ifs <;>
      simp [finalGraphSuggestionForViewer, hty, h1, h2]

theorem c8_column_extraction_witness :
    finalGraphSuggestionForViewer (mapBackendSuggestion
        ⟨some "O", some "bar", none, none,
          some ⟨some "a", none, some "n", none, none⟩,
          none, some (.yStr "b"), none, some "v", some "c", none, none⟩) =
      some (.plot (some "bar") none none
        ⟨some "a", some (.yStr "b"), none, some "v", some "c"⟩ "O") :=
  (c8_column_extraction
      ⟨some "O", some "bar", none, none,
        some ⟨some "a", none, some "n", none, none⟩,
        none, some (.yStr "b"), none, some "v", some "c", none, none⟩
      (by decide) (by decide) (by decide)).trans (by decide)

/-! ## C9 — plot-type data requirements in `GraphViewer` -/

/-- C9 counterexample: with a bar suggestion whose `x` and `y` columns are
BOTH present as keys in the first row, no plot is produced because the
first row's x value is `0` (falsy) — key presence is not the condition the
code tests. -/
theorem c9_counterexample :
    (rowGet [("a", JValue.jNum 0), ("b", JValue.jNum 1)] "a").isSome = true ∧
    (rowGet [("a", JValue.jNum 0), ("b", JValue.jNum 1)] "b").isSome = true ∧
    plotParams (some "bar") ⟨some "a", some (.yStr "b"), none, none, none⟩
      [[("a", JValue.jNum 0), ("b", JValue.jNum 1)]] = none := by
  decide

/-- C9 (amended): for non-empty data, a bar/line/scatter suggestion
produces a plot iff the `x` column name and the first `y` column name are
both truthy (present, non-empty) AND the first row's values at those keys
are truthy (key present with a non-null/non-zero/non-empty/non-false
value); a pie suggestion likewise for `names`/`values`. Otherwise
`plotParams` is null and no plot is produced. -/
theorem c9_plot_requirements (pt : String) (cols : PlotColumns) (row0 : Row)
    (rest : List Row) :
    ((pt = "bar" ∨ pt = "line" ∨ pt = "scatter") →
      ((plotParams (some pt) cols (row0 :: rest)).isSome = true ↔
        ∃ xc yc, cols.x = some xc ∧ yColFirst cols.y = some yc ∧
          xc ≠ "" ∧ yc ≠ "" ∧
          truthy (rowGet row0 xc) = true ∧ truthy (rowGet row0 yc) = true)) ∧
    (pt = "pie" →
      ((plotParams (some pt) cols (row0 :: rest)).isSome = true ↔
        ∃ nc vc, cols.names = some nc ∧ cols.values = some vc ∧
          nc ≠ "" ∧ vc ≠ "" ∧
          truthy (rowGet row0 nc) = true ∧ truthy (rowGet row0 vc) = true)) := by
  constructor
  · rintro (rfl | rfl | rfl) <;>
    · simp only [plotParams]
      norm_num
      rcases hx : cols.x with _ | xc <;> rcases hy : yColFirst cols.y with _ | yc <;>
        simp [hx, hy]
  · rintro rfl
    simp only [plotParams]
    norm_num
    rcases hn : cols.names with _ | nc <;> rcases hv : cols.values with _ | vc <;>
      simp [hn, hv]

theorem c9_plot_requirements_witness :
    (plotParams (some "bar") ⟨some "a", some (.yStr "b"), none, none, none⟩
        [[("a", JValue.jNum 2), ("b", JValue.jNum 1)]]).isSome = true ↔
      ∃ xc yc,
        (⟨some "a", some (.yStr "b"), none, none, none⟩ : PlotColumns).x = some xc ∧
        yColFirst (⟨some "a", some (.yStr "b"), none, none, none⟩ : PlotColumns).y = some yc ∧
        xc ≠ "" ∧ yc ≠ "" ∧
        truthy (rowGet [("a", JValue.jNum 2), ("b", JValue.jNum 1)] xc) = true ∧
        truthy (rowGet [("a", JValue.jNum 2), ("b", JValue.jNum 1)] yc) = true :=
  (c9_plot_requirements "bar" ⟨some "a", some (.yStr "b"), none, none, none⟩
      [("a", JValue.jNum 2), ("b", JValue.jNum 1)] []).1 (Or.inl rfl)

end Dashboard

namespace Dashboard

/-! ## C6 — `reasoning_summary` frame effect -/

theorem getD_mem_of_lt {α : Type} (l : List α) (j : Nat) (d : α) (h : j < l.length) :
    l.getD j d ∈ l := by
  induction l generalizing j with
  | nil => simp at h
  | cons a t ih =>
    cases j with
    | zero => simp
    | succ j' =>
      simp only [List.getD_cons_succ]
      exact List.mem_cons_of_mem _ (ih j' (by simpa using h))

theorem findLastIdxL_none_spec {α : Type} (p : α → Bool) (l : List α)
    (h : findLastIdxL p l = none) : ∀ x ∈ l, p x = false := by
  induction l with
  | nil => simp
  | cons a t ih =>
    intro x hx
    unfold findLastIdxL at h
    rcases hft : findLastIdxL p t with _ | k
    · rw [hft] at h
      rcases List.mem_cons.mp hx with rfl | hx'
      · by_cases hpa : p x = true
        · simp [hpa] at h
        · simpa using hpa
      · exact ih hft x hx'
    · rw [hft] at h
      cases h

theorem findLastIdxL_some_spec {α : Type} (p : α → Bool) (l : List α) (k : Nat) (d : α)
    (h : findLastIdxL p l = some k) :
    k < l.length ∧ p (l.getD k d) = true ∧
      ∀ j, k < j → j < l.length → p (l.getD j d) = false := by
  induction l generalizing k with
  | nil => cases h
  | cons a t ih =>
    unfold findLastIdxL at h
    rcases hft : findLastIdxL p t with _ | k'
    · rw [hft] at h
      by_cases hpa : p a = true
      · simp only [hpa, if_true] at h
        obtain rfl : k = 0 := by cases h; rfl
        refine ⟨by simp, by simpa using hpa, ?_⟩
        intro j hj1 hj2
        cases j with
        | zero => omega
        | succ j' =>
          simp only [List.getD_cons_succ]
          exact findLastIdxL_none_spec p t hft _
            (getD_mem_of_lt t j' d (by simpa using hj2))
      · simp [hpa] at h
    · rw [hft] at h
      obtain rfl : k = k' + 1 := by cases h; rfl
      obtain ⟨h1, h2, h3⟩ := ih k' hft
      refine ⟨by simpa using Nat.succ_lt_succ h1, by simpa using h2, ?_⟩
      intro j hj1 hj2
      cases j with
      | zero => omega
      | succ j' =>
        simp only [List.getD_cons_succ]
        exact h3 j' (by omega) (by simpa using hj2)

/-- `reasoning_summary` either leaves the state unchanged or patches
exactly the entry at the index found by `findLastIndex`. -/
theorem handleReasoningSummary_eq (st : ChatState) (msg : WsMessage) :
    handleReasoningSummary st msg = st ∨
    ∃ s r k, msg.step = some s ∧ msg.reasoning = some r ∧
      findLastIdxL (milestonePred s) st.messages = some k ∧
      handleReasoningSummary st msg =
        { st with
          messages := st.messages.set k
            { st.messages.getD k defaultMsg with
              reasoning := some ("**Reasoning:**\n" ++ r) } } := by
  unfold handleReasoningSummary
  split
  next s r hs hr =>
    split_ifs with hsr
    · left; rfl
    · rcases hf : findLastIdxL (milestonePred s) st.messages with _ | k
      · left; rfl
      · right; exact ⟨s, r, k, hs, hr, hf, rfl⟩
  next => exact Or.inl rfl

/-- C6: a `reasoning_summary` event touches nothing but the transcript;
it changes only the `reasoning` field of the most recent milestone entry
whose `step` equals the event's step (search from the end: the found
index matches the predicate and no later index does), and when no
milestone matches — or the event lacks a step or reasoning — the
transcript is left entirely unchanged. -/
theorem c6_reasoning_summary (st : ChatState) (msg : WsMessage)
    (h : msg.type = "reasoning_summary") :
    ((processWsMessage st msg).queryResults = st.queryResults ∧
      (processWsMessage st msg).graphSuggestions = st.graphSuggestions ∧
      (processWsMessage st msg).isProcessing = st.isProcessing ∧
      (processWsMessage st msg).currentStatus = st.currentStatus ∧
      (processWsMessage st msg).userId = st.userId ∧
      (processWsMessage st msg).messages.length = st.messages.length) ∧
    ((msg.step = none ∨ msg.reasoning = none) →
      (processWsMessage st msg).messages = st.messages) ∧
    (∀ s r, msg.step = some s → msg.reasoning = some r → s ≠ "" → r ≠ "" →
      match findLastIdxL (milestonePred s) st.messages with
      | none => (processWsMessage st msg).messages = st.messages
      | some k =>
        (processWsMessage st msg).messages =
          st.messages.set k
            { st.messages.getD k defaultMsg with
              reasoning := some ("**Reasoning:**\n" ++ r) } ∧
        milestonePred s (st.messages.getD k defaultMsg) = true ∧
        ∀ j, k < j → j < st.messages.length →
          milestonePred s (st.messages.getD j defaultMsg) = false) := by
  have hred : processWsMessage st msg = handleReasoningSummary st msg := by
    rw [processWsMessage_def, h, dispatch_reasoning_summary]
  refine ⟨?_, ?_, ?_⟩
  · rcases handleReasoningSummary_eq st msg with he | ⟨s, r, k, hs, hr, hf, he⟩ <;>
      rw [hred, he] <;> simp
  · intro hor
    rcases handleReasoningSummary_eq st msg with he | ⟨s, r, k, hs, hr, hf, he⟩
    · rw [hred, he]
    · rcases hor with h2 | h2
      · rw [h2] at hs; cases hs
      · rw [h2] at hr; cases hr
  · intro s r hs hr hs' hr'
    rcases hf : findLastIdxL (milestonePred s) st.messages with _ | k
    · simp only []
      rw [hred]
      simp [handleReasoningSummary, hs, hr, hs', hr', hf]
    · simp only []
      refine ⟨?_, ?_, ?_⟩
      · rw [hred]
        simp [handleReasoningSummary, hs, hr, hs', hr', hf]
      · exact (findLastIdxL_some_spec (milestonePred s) st.messages k defaultMsg hf).2.1
      · exact (findLastIdxL_some_spec (milestonePred s) st.messages k defaultMsg hf).2.2

theorem c6_reasoning_summary_witness :
    ((processWsMessage
        { st0 with messages := [⟨"m0", Role.milestone, "done", none, none, none, some "s1"⟩] }
        { baseMsg "reasoning_summary" with step := some "s1", reasoning := some "because" }).messages =
      [⟨"m0", Role.milestone, "done", some "**Reasoning:**\nbecause", none, none, some "s1"⟩]) := by
  have h := ((c6_reasoning_summary
      { st0 with messages := [⟨"m0", Role.milestone, "done", none, none, none, some "s1"⟩] }
      { baseMsg "reasoning_summary" with step := some "s1", reasoning := some "because" }
      rfl).2.2 "s1" "because" rfl rfl (by decide) (by decide))
  exact h.1.trans (by decide)

end Dashboard

namespace Dashboard

/-! ## C1 — the `(objective, query, platform)` triple invariant -/

/-- The claimed invariant: no two entries of the list share the
`(objective, query, platform)` triple. -/
def noDupTriples : List QueryResult → Bool
  | [] => true
  | a :: t => !(t.any (fun x => sameTriple a x)) && noDupTriples t

/-- Number of entries sharing the triple of `r`. -/
def countTriple (l : List QueryResult) (r : QueryResult) : Nat :=
  (l.filter (fun qr => sameTriple qr r)).length

theorem sameTriple_fields {a b : QueryResult} (h : sameTriple a b = true) :
    a.objective = b.objective ∧ a.query = b.query ∧ a.platform = b.platform := by
  simp only [sameTriple, Bool.and_eq_true, beq_iff_eq] at h
  exact ⟨h.1.1, h.1.2, h.2⟩

theorem sameTriple_symm (a b : QueryResult) : sameTriple a b = sameTriple b a := by
  rw [Bool.eq_iff_iff]
  simp only [sameTriple, Bool.and_eq_true, beq_iff_eq]
  constructor <;> rintro ⟨⟨h1, h2⟩, h3⟩ <;> exact ⟨⟨h1.symm, h2.symm⟩, h3.symm⟩

theorem sameTriple_congr {b r : QueryResult} (h : sameTriple b r = true)
    (x : QueryResult) : sameTriple x b = sameTriple x r := by
  obtain ⟨h1, h2, h3⟩ := sameTriple_fields h
  simp [sameTriple, h1, h2, h3]

theorem countTriple_cons (a : QueryResult) (t : List QueryResult) (r : QueryResult) :
    countTriple (a :: t) r =
      (if sameTriple a r = true then 1 else 0) + countTriple t r := by
  simp only [countTriple, List.filter_cons]
  split_ifs <;> simp [Nat.add_comm]

theorem countTriple_append_single (l : List QueryResult) (b r : QueryResult) :
    countTriple (l ++ [b]) r =
      countTriple l r + (if sameTriple b r = true then 1 else 0) := by
  simp only [countTriple, List.filter_append, List.length_append]
  congr 1
  simp only [List.filter_cons, List.filter_nil]
  split_ifs <;> rfl

theorem countTriple_eq_zero (l : List QueryResult) (r : QueryResult)
    (h : l.any (fun qr => sameTriple qr r) = false) : countTriple l r = 0 := by
  induction l with
  | nil => rfl
  | cons a t ih =>
    simp only [List.any_cons, Bool.or_eq_false_iff] at h
    rw [countTriple_cons, ih h.2]
    simp [h.1]

theorem countTriple_pos (l : List QueryResult) (r : QueryResult)
    (h : l.any (fun qr => sameTriple qr r) = true) : 0 < countTriple l r := by
  induction l with
  | nil => cases h
  | cons a t ih =>
    simp only [List.any_cons, Bool.or_eq_true] at h
    rw [countTriple_cons]
    rcases h with h | h
    · simp [h]
    · have := ih h
      omega

theorem countTriple_le_one (l : List QueryResult) (r : QueryResult)
    (h : noDupTriples l = true) : countTriple l r ≤ 1 := by
  induction l with
  | nil => simp [countTriple]
  | cons a t ih =>
    simp only [noDupTriples, Bool.and_eq_true, Bool.not_eq_true'] at h
    obtain ⟨hna, hnd⟩ := h
    rw [countTriple_cons]
    by_cases har : sameTriple a r = true
    · have h0 : countTriple t r = 0 := by
        apply countTriple_eq_zero
        by_contra hpos
        have hpos' : t.any (fun qr => sameTriple qr r) = true := by
          revert hpos
          cases t.any (fun qr => sameTriple qr r) <;> simp
        obtain ⟨x, hx, hxr⟩ := List.any_eq_true.mp hpos'
        have hax : sameTriple a x = true := by
          rw [sameTriple_symm a x, sameTriple_congr har x]
          exact hxr
        have hcontra : t.any (fun x => sameTriple a x) = true :=
          List.any_eq_true.mpr ⟨x, hx, hax⟩
        rw [hna] at hcontra
        cases hcontra
      simp [har, h0]
    · have har' : sameTriple a r = false := by
        revert har
        cases sameTriple a r <;> simp
      simp only [har', if_false]
      simpa using ih hnd

theorem noDupTriples_append_single (l : List QueryResult) (b : QueryResult)
    (hnd : noDupTriples l = true)
    (hna : l.any (fun qr => sameTriple qr b) = false) :
    noDupTriples (l ++ [b]) = true := by
  induction l with
  | nil => rfl
  | cons a t ih =>
    simp only [noDupTriples, Bool.and_eq_true, Bool.not_eq_true'] at hnd
    simp only [List.any_cons, Bool.or_eq_false_iff] at hna
    simp only [List.cons_append, noDupTriples, Bool.and_eq_true, Bool.not_eq_true']
    refine ⟨?_, ih hnd.2 hna.2⟩
    simp [List.any_append, hnd.1, hna.1]

theorem handleConn_queryResults (st : ChatState) (msg : WsMessage) :
    (handleConn st msg).queryResults = st.queryResults := by
  simp only [handleConn]
  split
  · split_ifs <;> rfl
  · rfl

theorem handleStatus_queryResults (st : ChatState) (msg : WsMessage) :
    (handleStatus st msg).queryResults = st.queryResults := by
  simp only [handleStatus]
  split
  · rfl
  · split_ifs <;> rfl

theorem handleClassInfo_queryResults (st : ChatState) (msg : WsMessage) :
    (handleClassInfo st msg).queryResults = st.queryResults := by
  simp only [handleClassInfo]
  split
  · split_ifs <;> rfl
  · rfl

theorem handleClassAnswer_queryResults (st : ChatState) (msg : WsMessage) :
    (handleClassAnswer st msg).queryResults = st.queryResults := by
  simp only [handleClassAnswer]
  split
  · split_ifs <;> rfl
  · rfl

theorem handleReasoningSummary_queryResults (st : ChatState) (msg : WsMessage) :
    (handleReasoningSummary st msg).queryResults = st.queryResults := by
  rcases handleReasoningSummary_eq st msg with he | ⟨_, _, _, _, _, _, he⟩ <;> rw [he]

/-- With no `executed_queries` payload, every event either preserves the
TabularResult list, clears it, or performs the de-duplicating
`query_result` append. -/
theorem queryResults_shape (st : ChatState) (msg : WsMessage)
    (hex : msg.executed_queries = none) :
    (processWsMessage st msg).queryResults = st.queryResults ∨
    (processWsMessage st msg).queryResults = [] ∨
    (processWsMessage st msg).queryResults =
      (if st.queryResults.any (fun qr => sameTriple qr (builtQueryResult msg)) then
        st.queryResults
      else st.queryResults ++ [builtQueryResult msg]) := by
  rw [processWsMessage_def]
  unfold dispatch
  split
  · exact Or.inl (handleConn_queryResults st msg)
  · exact Or.inl (handleStatus_queryResults st msg)
  · exact Or.inl (handleClassInfo_queryResults st msg)
  · exact Or.inl (handleClassAnswer_queryResults st msg)
  · exact Or.inl (handleReasoningSummary_queryResults st msg)
  · left
    unfold handleFinalInsight
    rw [hex]
    rfl
  · right; left
    unfold handleFinalRecommendation
    rw [hex]
  · right; right
    rfl
  · exact Or.inl rfl
  · left
    rfl
  · exact Or.inl rfl

theorem countTriple_foldl (r : QueryResult) (msgs : List WsMessage) :
    ∀ st : ChatState, noDupTriples st.queryResults = true →
      (∀ m ∈ msgs, m.type = "query_result" ∧ sameTriple (builtQueryResult m) r = true) →
      msgs ≠ [] →
      countTriple ((msgs.foldl processWsMessage st).queryResults) r = 1 := by
  induction msgs with
  | nil =>
    intro st _ _ hne
    exact absurd rfl hne
  | cons m rest ih =>
    intro st hinv hall _
    obtain ⟨hm, hr⟩ := hall m (List.mem_cons_self m rest)
    have hpred : ∀ qr : QueryResult,
        sameTriple qr (builtQueryResult m) = sameTriple qr r :=
      fun qr => sameTriple_congr hr qr
    have hanyeq : st.queryResults.any (fun qr => sameTriple qr (builtQueryResult m)) =
        st.queryResults.any (fun qr => sameTriple qr r) := by
      simp only [hpred]
    have hstep : (processWsMessage st m).queryResults =
        (if st.queryResults.any (fun qr => sameTriple qr (builtQueryResult m)) then
          st.queryResults
        else st.queryResults ++ [builtQueryResult m]) := by
      rw [processWsMessage_def, hm, dispatch_query_result]
      rfl
    have hinv' : noDupTriples (processWsMessage st m).queryResults = true := by
      rw [hstep]
      split_ifs with hany
      · exact hinv
      · refine noDupTriples_append_single _ _ hinv ?_
        revert hany
        cases st.queryResults.any (fun qr => sameTriple qr (builtQueryResult m)) <;> simp
    have hcount : countTriple (processWsMessage st m).queryResults r = 1 := by
      rw [hstep, hanyeq]
      split_ifs with hany
      · have h1 := countTriple_pos st.queryResults r hany
        have h2 := countTriple_le_one st.queryResults r hinv
        omega
      · have hf : st.queryResults.any (fun qr => sameTriple qr r) = false := by
          revert hany
          cases st.queryResults.any (fun qr => sameTriple qr r) <;> simp
        rw [countTriple_append_single, countTriple_eq_zero _ _ hf, hr]
        rfl
    rcases rest with _ | ⟨m2, rest2⟩
    · simpa [List.foldl] using hcount
    · have := ih (processWsMessage st m) hinv'
        (fun m' hm' => hall m' (List.mem_cons_of_mem m hm'))
        (by simp)
      simpa [List.foldl_cons] using this

/-- C1 (amended): every event WITHOUT an `executed_queries` payload
preserves the no-duplicate-triple invariant, and for every non-empty
sequence of `query_result` events sharing one built
`(objective, query, platform)` triple, processed from any state
satisfying the invariant, the list ends with exactly one entry for that
triple. (Bulk `executed_queries` processing, by contrast, copies the
array without de-duplication and can break the invariant — see the
counterexample.) -/
theorem c1_triple_invariant (st : ChatState)
    (hinv : noDupTriples st.queryResults = true) :
    (∀ msg : WsMessage, msg.executed_queries = none →
      noDupTriples (processWsMessage st msg).queryResults = true) ∧
    (∀ (r : QueryResult) (msgs : List WsMessage), msgs ≠ [] →
      (∀ m ∈ msgs, m.type = "query_result" ∧ sameTriple (builtQueryResult m) r = true) →
      countTriple ((msgs.foldl processWsMessage st).queryResults) r = 1) := by
  constructor
  · intro msg hex
    rcases queryResults_shape st msg hex with h | h | h <;> rw [h]
    · exact hinv
    · rfl
    · split_ifs with hany
      · exact hinv
      · refine noDupTriples_append_single _ _ hinv ?_
        revert hany
        cases st.queryResults.any (fun qr => sameTriple qr (builtQueryResult msg)) <;> simp
  · intro r msgs hne hall
    exact countTriple_foldl r msgs st hinv hall hne

theorem c1_triple_invariant_witness :
    countTriple
      (([{ baseMsg "query_result" with objective := some "o", platform := some "g" },
          { baseMsg "query_result" with objective := some "o", platform := some "g" }].foldl
        processWsMessage st0).queryResults)
      (builtQueryResult
        { baseMsg "query_result" with objective := some "o", platform := some "g" }) = 1 :=
  (c1_triple_invariant st0 (by decide)).2
    (builtQueryResult
      { baseMsg "query_result" with objective := some "o", platform := some "g" })
    [{ baseMsg "query_result" with objective := some "o", platform := some "g" },
      { baseMsg "query_result" with objective := some "o", platform := some "g" }]
    (by simp) (by decide)

/-- C1 counterexample: a `final_insight` whose `executed_queries` array
holds two entries with the same (objective, query, platform) triple
produces a TabularResult list with a duplicate triple — the bulk
operation does not preserve the invariant. -/
theorem c1_counterexample :
    noDupTriples st0.queryResults = true ∧
    noDupTriples (processWsMessage st0
        { baseMsg "final_insight" with
          executed_queries :=
            some [⟨some "g", some "o", some "q", some [[("a", JValue.jNum 1)]]⟩,
                  ⟨some "g", some "o", some "q", some [[("a", JValue.jNum 2)]]⟩] }).queryResults =
      false := by
  decide

end Dashboard
